import Mathlib

/-!
# Verification of the oracles ingest pipeline

A shallow embedding, in Lean 4, of the report-ingest layer of the `oracles`
repository: the verification gate, event-identity digest, and submit handlers
of `ingest/src/server/iot.rs`, `ingest/src/server_iot.rs` and
`ingest/src/server_5g.rs`, together with the `generate_id` functions of
`file_store/src/lora_witness_report.rs`, and a functional model of the
pipeline orchestrator (`tokio::try_join!` over the transport listener, the
file sinks and the uploader).

Bytes are modelled as `List Nat` (each entry < 256 where it matters).
Machine integers are modelled as `Nat`/`Int` with explicit reduction
modulo `2 ^ 32` inside the SHA-256 compression function, which is
implemented in full (FIPS 180-4) because the repository derives report
identifiers with `sha2::Sha256`.

External collaborators (the `helium_crypto`, `chrono`, `sha2` and `tonic`
crates) are modelled at their interfaces: public-key decoding and signature
verification are oracle parameters, timestamps carry an abstract instant with
a deterministic textual rendering, and `tonic::Status` keeps only the code
and message the ingest code constructs.
-/

/-! ## Byte-level helpers -/

/-- The bytes of a string, one `Nat` per character code point.  For the ASCII
strings produced by the code under study this agrees with Rust's
`str::as_bytes` (UTF-8). -/
def strBytes (s : String) : List Nat :=
  s.data.map Char.toNat

/-- Big-endian bytes of `n`, `count` bytes wide (most significant first). -/
def natToBytesBE (n count : Nat) : List Nat :=
  (List.range count).map (fun i => n >>> (8 * (count - 1 - i)) % 256)

/-- One hexadecimal digit. -/
def hexDigit (n : Nat) : Char :=
  if n < 10 then Char.ofNat (48 + n) else Char.ofNat (87 + n)

/-- Lower-case hexadecimal rendering of a byte list. -/
def hexString (bs : List Nat) : String :=
  ⟨bs.foldr (fun b acc => hexDigit (b / 16 % 16) :: hexDigit (b % 16) :: acc) []⟩

/-! ## SHA-256 (FIPS 180-4), executable over `List Nat` bytes

The repository computes report identifiers with `sha2::Sha256::digest`; the
definitions below implement the same function over byte lists, with 32-bit
words as `Nat` reduced modulo `2 ^ 32`. -/

namespace Sha256

/-- Truncate to a 32-bit word. -/
def w32 (n : Nat) : Nat := n % 2 ^ 32

/-- Right rotation of a 32-bit word. -/
def rotr (n x : Nat) : Nat :=
  w32 ((x >>> n) ||| (x <<< (32 - n)))

/-- Bitwise complement of a 32-bit word. -/
def not32 (x : Nat) : Nat := Nat.xor x (2 ^ 32 - 1)

def ch (x y z : Nat) : Nat := Nat.xor (x &&& y) (not32 x &&& z)

def maj (x y z : Nat) : Nat := Nat.xor (Nat.xor (x &&& y) (x &&& z)) (y &&& z)

def bigSigma0 (x : Nat) : Nat := Nat.xor (Nat.xor (rotr 2 x) (rotr 13 x)) (rotr 22 x)

def bigSigma1 (x : Nat) : Nat := Nat.xor (Nat.xor (rotr 6 x) (rotr 11 x)) (rotr 25 x)

def smallSigma0 (x : Nat) : Nat := Nat.xor (Nat.xor (rotr 7 x) (rotr 18 x)) (x >>> 3)

def smallSigma1 (x : Nat) : Nat := Nat.xor (Nat.xor (rotr 17 x) (rotr 19 x)) (x >>> 10)

/-- The 64 round constants of FIPS 180-4: the first 32 bits of the
fractional parts of the cube roots of the first 64 primes, written in
decimal. -/
def K : List Nat :=
  [1116352408, 1899447441, 3049323471, 3921009573, 961987163,
   1508970993, 2453635748, 2870763221, 3624381080, 310598401,
   607225278, 1426881987, 1925078388, 2162078206, 2614888103,
   3248222580, 3835390401, 4022224774, 264347078, 604807628,
   770255983, 1249150122, 1555081692, 1996064986, 2554220882,
   2821834349, 2952996808, 3210313671, 3336571891, 3584528711,
   113926993, 338241895, 666307205, 773529912, 1294757372,
   1396182291, 1695183700, 1986661051, 2177026350, 2456956037,
   2730485921, 2820302411, 3259730800, 3345764771, 3516065817,
   3600352804, 4094571909, 275423344, 430227734, 506948616,
   659060556, 883997877, 958139571, 1322822218, 1537002063,
   1747873779, 1955562222, 2024104815, 2227730452, 2361852424,
   2428436474, 2756734187, 3204031479, 3329325298]

/-- The eight working variables of the compression function. -/
structure Hs where
  a : Nat
  b : Nat
  c : Nat
  d : Nat
  e : Nat
  f : Nat
  g : Nat
  h : Nat
deriving Repr, DecidableEq

/-- The initial hash value of FIPS 180-4: the first 32 bits of the
fractional parts of the square roots of the first 8 primes, in decimal. -/
def h0 : Hs :=
  ⟨1779033703, 3144134277, 1013904242, 2773480762,
   1359893119, 2600822924, 528734635, 1541459225⟩

/-- Group a byte list into big-endian 32-bit words. -/
def toWords : List Nat → List Nat
  | b0 :: b1 :: b2 :: b3 :: rest =>
      (b0 <<< 24 ||| b1 <<< 16 ||| b2 <<< 8 ||| b3) :: toWords rest
  | _ => []

/-- Extend the 16 words of a block to the 64-entry message schedule. -/
def extendSchedule (w16 : List Nat) : List Nat :=
  (List.range 48).foldl
    (fun w _ =>
      let n := w.length
      let wi := w32 (smallSigma1 (w.getD (n - 2) 0) + w.getD (n - 7) 0 +
        smallSigma0 (w.getD (n - 15) 0) + w.getD (n - 16) 0)
      w ++ [wi])
    w16

/-- One round of the compression function. -/
def round (ws : List Nat) (st : Hs) (i : Nat) : Hs :=
  let t1 := w32 (st.h + bigSigma1 st.e + ch st.e st.f st.g + K.getD i 0 + ws.getD i 0)
  let t2 := w32 (bigSigma0 st.a + maj st.a st.b st.c)
  ⟨w32 (t1 + t2), st.a, st.b, st.c, w32 (st.d + t1), st.e, st.f, st.g⟩

/-- Compress one 64-byte block into the running hash value. -/
def compressBlock (h : Hs) (block : List Nat) : Hs :=
  let ws := extendSchedule (toWords block)
  let st := (List.range 64).foldl (round ws) h
  ⟨w32 (h.a + st.a), w32 (h.b + st.b), w32 (h.c + st.c), w32 (h.d + st.d),
   w32 (h.e + st.e), w32 (h.f + st.f), w32 (h.g + st.g), w32 (h.h + st.h)⟩

/-- Merkle–Damgård padding: a `0x80` byte, zeros to 56 mod 64, then the
message bit length as 8 big-endian bytes. -/
def padMessage (msg : List Nat) : List Nat :=
  let len := msg.length
  let zeros := (64 - (len + 9) % 64) % 64
  msg ++ 0x80 :: List.replicate zeros 0 ++ natToBytesBE (len * 8) 8

/-- Split a (padded) byte list into 64-byte blocks. -/
def splitBlocks (msg : List Nat) : List (List Nat) :=
  (msg.foldl
    (fun (acc : List (List Nat) × List Nat) b =>
      let cur := acc.2 ++ [b]
      if cur.length = 64 then (acc.1 ++ [cur], []) else (acc.1, cur))
    ([], [])).1

/-- The digest bytes of a final hash value. -/
def hsBytes (h : Hs) : List Nat :=
  natToBytesBE h.a 4 ++ natToBytesBE h.b 4 ++ natToBytesBE h.c 4 ++ natToBytesBE h.d 4 ++
  natToBytesBE h.e 4 ++ natToBytesBE h.f 4 ++ natToBytesBE h.g 4 ++ natToBytesBE h.h 4

end Sha256

/-- SHA-256 of a byte list, as the 32 digest bytes. -/
def sha256 (msg : List Nat) : List Nat :=
  Sha256.hsBytes ((Sha256.splitBlocks (Sha256.padMessage msg)).foldl Sha256.compressBlock Sha256.h0)

/-! ## External collaborators: `helium_crypto`, `chrono`

Public-key decoding (`PublicKey::try_from`) and signature verification
(`MsgVerify::verify`) are cryptographic operations of the external
`helium_crypto` crate; the embedding treats them as oracle parameters
`decode : List Nat → Option PublicKey` and
`verify : PublicKey → E → Bool` of the server functions. -/

/-- Model of `helium_crypto::Network` (`MainNet` / `TestNet`). -/
inductive Network where
  | mainnet
  | testnet
deriving Repr, DecidableEq

/-- Model of `helium_crypto::PublicKey`: the network tag embedded in the key
together with the raw key bytes that `to_vec` returns. -/
structure PublicKey where
  network : Network
  bytes : List Nat
deriving Repr, DecidableEq

/-- `PublicKey::to_vec`: the raw public key bytes. -/
def PublicKey.to_vec (pk : PublicKey) : List Nat := pk.bytes

/-- Model of `chrono::DateTime<Utc>`: an instant since the Unix epoch.  The
sub-second resolution of the crate is irrelevant to the code under study;
what matters is that the instant is a value with a deterministic textual
rendering (`Display`, modelled by `DateTimeUtc.render`). -/
structure DateTimeUtc where
  millis : Int
deriving Repr, DecidableEq

/-- Model of the `Display` rendering (`to_string`) of a `DateTime<Utc>`:
a fixed deterministic function of the instant. -/
def DateTimeUtc.render (t : DateTimeUtc) : String := toString t.millis

/-! ## `file_store/src/lora_witness_report.rs` -/

/-- `LoraWitnessReport` (file_store/src/lora_witness_report.rs:10-21).
`DataRate` is an external protobuf enumeration, modelled by its integer
representation. -/
structure LoraWitnessReport where
  pub_key : PublicKey
  data : List Nat
  timestamp : DateTimeUtc
  ts_res : Nat
  signal : Int
  snr : Int
  frequency : Nat
  datarate : Nat
  signature : List Nat
deriving Repr, DecidableEq

/-- `LoraWitnessIngestReport` (file_store/src/lora_witness_report.rs:23-27). -/
structure LoraWitnessIngestReport where
  received_timestamp : DateTimeUtc
  report : LoraWitnessReport
deriving Repr, DecidableEq

/-- `LoraWitnessIngestReport::generate_id`
(file_store/src/lora_witness_report.rs:33-41): SHA-256 over the report data,
then the rendered received timestamp, then the raw public key bytes. -/
def LoraWitnessIngestReport.generate_id (self : LoraWitnessIngestReport) : List Nat :=
  let id := self.report.data
  let public_key := self.report.pub_key.to_vec
  let id := id ++ strBytes self.received_timestamp.render
  let id := id ++ public_key
  sha256 id

/-- `LoraWitnessReport::generate_id`
(file_store/src/lora_witness_report.rs:43-51): the same digest, with the
received timestamp passed as an argument. -/
def LoraWitnessReport.generate_id (self : LoraWitnessReport) (received_ts : DateTimeUtc) :
    List Nat :=
  let id := self.data
  let public_key := self.pub_key.to_vec
  let id := id ++ strBytes received_ts.render
  let id := id ++ public_key
  sha256 id

/-! ## Transport-level types (`tonic`, `helium_proto`)

The wire schemas are external collaborators; the structures below carry the
fields the protobuf definitions declare.  Responses are modelled without the
surrounding `tonic::Response` wrapper, and a handler's outcome is the pair of
its gRPC result and the list of messages it handed to file sinks (each with
the sink's accept/reject outcome, which the handlers discard). -/

/-- Model of `tonic::Status`, restricted to the constructors the ingest
servers build. -/
inductive Status where
  | invalid_argument (msg : String)
  | unauthenticated (msg : String)
deriving Repr, DecidableEq

/-- `LoraBeaconReportReqV1` (helium_proto). -/
structure LoraBeaconReportReqV1 where
  pub_key : List Nat
  local_entropy : List Nat
  remote_entropy : List Nat
  data : List Nat
  frequency : Nat
  channel : Int
  datarate : Nat
  tx_power : Int
  timestamp : Nat
  signature : List Nat
deriving Repr, DecidableEq

/-- `LoraWitnessReportReqV1` (helium_proto). -/
structure LoraWitnessReportReqV1 where
  pub_key : List Nat
  data : List Nat
  timestamp : Nat
  ts_res : Nat
  signal : Int
  snr : Int
  frequency : Nat
  datarate : Nat
  signature : List Nat
deriving Repr, DecidableEq

/-- `SpeedtestReqV1` (helium_proto). -/
structure SpeedtestReqV1 where
  pub_key : List Nat
  serial : String
  timestamp : Nat
  upload_speed : Nat
  download_speed : Nat
  latency : Nat
  signature : List Nat
deriving Repr, DecidableEq

/-- `CellHeartbeatReqV1` (helium_proto).  The `lat`/`lon` coordinates are
floating point on the wire; the ingest code never inspects them, so they are
modelled as opaque integers. -/
structure CellHeartbeatReqV1 where
  pub_key : List Nat
  hotspot_type : String
  cell_id : Nat
  timestamp : Nat
  lat : Int
  lon : Int
  operation_mode : Bool
  cbsd_category : String
  cbsd_id : String
  signature : List Nat
deriving Repr, DecidableEq

/-- `LoraBeaconReportRespV1` (helium_proto). -/
structure LoraBeaconReportRespV1 where
  id : String
deriving Repr, DecidableEq

/-- `LoraWitnessReportRespV1` (helium_proto). -/
structure LoraWitnessReportRespV1 where
  id : String
deriving Repr, DecidableEq

/-- `SpeedtestRespV1` (helium_proto). -/
structure SpeedtestRespV1 where
  id : String
deriving Repr, DecidableEq

/-- `CellHeartbeatRespV1` (helium_proto). -/
structure CellHeartbeatRespV1 where
  id : String
deriving Repr, DecidableEq

/-- `LoraBeaconIngestReportV1` (helium_proto). -/
structure LoraBeaconIngestReportV1 where
  received_timestamp : Nat
  report : Option LoraBeaconReportReqV1
deriving Repr, DecidableEq

/-- `LoraWitnessIngestReportV1` (helium_proto). -/
structure LoraWitnessIngestReportV1 where
  received_timestamp : Nat
  report : Option LoraWitnessReportReqV1
deriving Repr, DecidableEq

/-- `SpeedtestIngestReportV1` (helium_proto). -/
structure SpeedtestIngestReportV1 where
  report : Option SpeedtestReqV1
  received_timestamp : Nat
deriving Repr, DecidableEq

/-- `CellHeartbeatIngestReportV1` (helium_proto). -/
structure CellHeartbeatIngestReportV1 where
  report : Option CellHeartbeatReqV1
  received_timestamp : Nat
deriving Repr, DecidableEq

/-! ## Event identity -/

/-- Modelled from the spec: the `EventId` type (`crate::EventId` of the
ingest crate) is used by `server/iot.rs` and `server_5g.rs` through
`EventId::from(&event)` and `event_id.into()`, but its definition is not
among the provided sources.  The spec (§2, §3, §6) describes it as a
stateless "content digest identifying a report occurrence", "a fixed-length
cryptographic digest", returned to the client "rendered as bytes or string".
`EventId::from(&event)` is modelled as the SHA-256 digest of the event's
content bytes. -/
def eventIdOf (contentBytes : List Nat) : List Nat := sha256 contentBytes

/-- Modelled from the spec: the rendering of an `EventId` into the string
`id` field of a response ("rendered as bytes or string"), as the hexadecimal
string of the digest bytes. -/
def eventIdString (contentBytes : List Nat) : String := hexString (eventIdOf contentBytes)

/-- Modelled from the spec: the content bytes of a beacon report fed to the
`EventId` digest — the report's fields, byte fields verbatim and numeric
fields in 8-byte big-endian form. -/
def LoraBeaconReportReqV1.contentBytes (e : LoraBeaconReportReqV1) : List Nat :=
  e.pub_key ++ e.local_entropy ++ e.remote_entropy ++ e.data ++
  natToBytesBE e.frequency 8 ++ natToBytesBE e.channel.toNat 8 ++
  natToBytesBE e.datarate 8 ++ natToBytesBE e.tx_power.toNat 8 ++
  natToBytesBE e.timestamp 8 ++ e.signature

/-- Modelled from the spec: the content bytes of a witness report fed to the
`EventId` digest. -/
def LoraWitnessReportReqV1.contentBytes (e : LoraWitnessReportReqV1) : List Nat :=
  e.pub_key ++ e.data ++ natToBytesBE e.timestamp 8 ++ natToBytesBE e.ts_res 8 ++
  natToBytesBE e.signal.toNat 8 ++ natToBytesBE e.snr.toNat 8 ++
  natToBytesBE e.frequency 8 ++ natToBytesBE e.datarate 8 ++ e.signature

/-- Modelled from the spec: the content bytes of a speedtest report fed to
the `EventId` digest. -/
def SpeedtestReqV1.contentBytes (e : SpeedtestReqV1) : List Nat :=
  e.pub_key ++ strBytes e.serial ++ natToBytesBE e.timestamp 8 ++
  natToBytesBE e.upload_speed 8 ++ natToBytesBE e.download_speed 8 ++
  natToBytesBE e.latency 8 ++ e.signature

/-- Modelled from the spec: the content bytes of a heartbeat report fed to
the `EventId` digest. -/
def CellHeartbeatReqV1.contentBytes (e : CellHeartbeatReqV1) : List Nat :=
  e.pub_key ++ strBytes e.hotspot_type ++ natToBytesBE e.cell_id 8 ++
  natToBytesBE e.timestamp 8 ++ natToBytesBE e.lat.toNat 8 ++
  natToBytesBE e.lon.toNat 8 ++ (if e.operation_mode then [1] else [0]) ++
  strBytes e.cbsd_category ++ strBytes e.cbsd_id ++ e.signature

/-! ## `ingest/src/server/iot.rs` — struct `Server`

A handler's value is the pair of its gRPC result and the list of messages it
handed to its file sink; each listed message is paired with the sink's
accept/reject outcome for that enqueue (`file_sink_write!` returns a
`Result`, which the handlers discard with `let _ = ...`).  The wall-clock
reading `Utc::now().timestamp_millis()` is the parameter `now`. -/

namespace ServerIot

/-- `Server::decode_pub_key` (server/iot.rs:24-26). -/
def decode_pub_key (decode : List Nat → Option PublicKey) (data : List Nat) :
    Except Status PublicKey :=
  match decode data with
  | some pk => .ok pk
  | none => .error (.invalid_argument "invalid public key")

/-- `Server::verify_network` (server/iot.rs:28-32). -/
def verify_network (required_network : Network) (public_key : PublicKey) :
    Except Status PublicKey :=
  if required_network = public_key.network then .ok public_key
  else .error (.invalid_argument "invalid network")

/-- `Server::verify_signature` (server/iot.rs:34-38). -/
def verify_signature {E : Type} (verify : PublicKey → E → Bool) (pub_key : PublicKey)
    (event : E) : Except Status Unit :=
  if verify pub_key event then .ok () else .error (.invalid_argument "invalid signature")

/-- The verification chain both handlers run (server/iot.rs:49-51 and 76-78):
`decode_pub_key(..).and_then(verify_network).and_then(verify_signature)`. -/
def gate {E : Type} (decode : List Nat → Option PublicKey) (required_network : Network)
    (verify : PublicKey → E → Bool) (pub_key_bytes : List Nat) (event : E) :
    Except Status Unit :=
  decode_pub_key decode pub_key_bytes >>= fun pub_key =>
  verify_network required_network pub_key >>= fun pub_key =>
  verify_signature verify pub_key event

/-- `Server::submit_lora_beacon` (server/iot.rs:43-68). -/
def submit_lora_beacon (decode : List Nat → Option PublicKey)
    (required_network : Network) (verify : PublicKey → LoraBeaconReportReqV1 → Bool)
    (now : Nat) (sink_result : Except String Unit) (event : LoraBeaconReportReqV1) :
    Except Status LoraBeaconReportRespV1 ×
      List (LoraBeaconIngestReportV1 × Except String Unit) :=
  match gate decode required_network verify event.pub_key event with
  | .error e => (.error e, [])
  | .ok () =>
      let event_id := eventIdOf event.contentBytes
      let received_timestamp := now
      let report : LoraBeaconIngestReportV1 :=
        { received_timestamp, report := some event }
      (.ok { id := hexString event_id }, [(report, sink_result)])

/-- `Server::submit_lora_witness` (server/iot.rs:70-95). -/
def submit_lora_witness (decode : List Nat → Option PublicKey)
    (required_network : Network) (verify : PublicKey → LoraWitnessReportReqV1 → Bool)
    (now : Nat) (sink_result : Except String Unit) (event : LoraWitnessReportReqV1) :
    Except Status LoraWitnessReportRespV1 ×
      List (LoraWitnessIngestReportV1 × Except String Unit) :=
  match gate decode required_network verify event.pub_key event with
  | .error e => (.error e, [])
  | .ok () =>
      let event_id := eventIdOf event.contentBytes
      let received_timestamp := now
      let report : LoraWitnessIngestReportV1 :=
        { received_timestamp, report := some event }
      (.ok { id := hexString event_id }, [(report, sink_result)])

end ServerIot

/-! ## `ingest/src/server_iot.rs` — struct `GrpcServer` -/

namespace GrpcServerIot

/-- `GrpcServer::verify_public_key` (server_iot.rs:45-47). -/
def verify_public_key (decode : List Nat → Option PublicKey) (bytes : List Nat) :
    Except Status PublicKey :=
  match decode bytes with
  | some pk => .ok pk
  | none => .error (.invalid_argument "invalid public key")

/-- `GrpcServer::verify_network` (server_iot.rs:37-43). -/
def verify_network (required_network : Network) (public_key : PublicKey) :
    Except Status PublicKey :=
  if required_network = public_key.network then .ok public_key
  else .error (.invalid_argument "invalid network")

/-- `GrpcServer::verify_signature` (server_iot.rs:49-57): on success it hands
back the key together with the event. -/
def verify_signature {E : Type} (verify : PublicKey → E → Bool) (public_key : PublicKey)
    (event : E) : Except Status (PublicKey × E) :=
  if verify public_key event then .ok (public_key, event)
  else .error (.invalid_argument "invalid signature")

/-- The verification chain both handlers run (server_iot.rs:69-72, 92-95). -/
def gate {E : Type} (decode : List Nat → Option PublicKey) (required_network : Network)
    (verify : PublicKey → E → Bool) (pub_key_bytes : List Nat) (event : E) :
    Except Status (PublicKey × E) :=
  verify_public_key decode pub_key_bytes >>= fun public_key =>
  verify_network required_network public_key >>= fun public_key =>
  verify_signature verify public_key event

/-- `GrpcServer::submit_lora_beacon` (server_iot.rs:62-83).  Note the
response id: `timestamp.to_string()` of the millisecond reception time. -/
def submit_lora_beacon (decode : List Nat → Option PublicKey)
    (required_network : Network) (verify : PublicKey → LoraBeaconReportReqV1 → Bool)
    (now : Nat) (sink_result : Except String Unit) (event : LoraBeaconReportReqV1) :
    Except Status LoraBeaconReportRespV1 ×
      List (LoraBeaconIngestReportV1 × Except String Unit) :=
  let timestamp := now
  match (gate decode required_network verify event.pub_key event).map
      (fun pe => ({ received_timestamp := timestamp, report := some pe.2 }
        : LoraBeaconIngestReportV1)) with
  | .error e => (.error e, [])
  | .ok report =>
      let id := toString timestamp
      (.ok { id }, [(report, sink_result)])

/-- `GrpcServer::submit_lora_witness` (server_iot.rs:85-106). -/
def submit_lora_witness (decode : List Nat → Option PublicKey)
    (required_network : Network) (verify : PublicKey → LoraWitnessReportReqV1 → Bool)
    (now : Nat) (sink_result : Except String Unit) (event : LoraWitnessReportReqV1) :
    Except Status LoraWitnessReportRespV1 ×
      List (LoraWitnessIngestReportV1 × Except String Unit) :=
  let timestamp := now
  match (gate decode required_network verify event.pub_key event).map
      (fun pe => ({ received_timestamp := timestamp, report := some pe.2 }
        : LoraWitnessIngestReportV1)) with
  | .error e => (.error e, [])
  | .ok report =>
      let id := toString timestamp
      (.ok { id }, [(report, sink_result)])

end GrpcServerIot

/-! ## `ingest/src/server_5g.rs` — struct `GrpcServer` (mobile) -/

deriving instance DecidableEq for Except

/-- One message handed to a mobile file sink by `server_5g.rs`, with the
sink's accept/reject outcome for that enqueue (`file_sink::write` returns a
`Result`; the handlers log a failure and carry on). -/
inductive MobileWrite where
  | speedtest_req (event : SpeedtestReqV1) (result : Except String Unit)
  | speedtest_report (report : SpeedtestIngestReportV1) (result : Except String Unit)
  | heartbeat_req (event : CellHeartbeatReqV1) (result : Except String Unit)
  | heartbeat_report (report : CellHeartbeatIngestReportV1) (result : Except String Unit)
deriving Repr, DecidableEq

namespace GrpcServer5g

/-- The verification prefix of both mobile handlers
(server_5g.rs:32-36 and 65-69): decode the public key, then verify the
signature.  There is no network check in this file. -/
def gate {E : Type} (decode : List Nat → Option PublicKey)
    (verify : PublicKey → E → Bool) (pub_key_bytes : List Nat) (event : E) :
    Except Status PublicKey :=
  (match decode pub_key_bytes with
    | some pk => Except.ok pk
    | none => Except.error (Status.invalid_argument "invalid public key")) >>=
  fun public_key =>
    if verify public_key event then .ok public_key
    else .error (.invalid_argument "invalid signature")

/-- `GrpcServer::submit_speedtest` (server_5g.rs:26-57): two sink writes
(raw request and ingest report), each outcome logged and discarded; the
response is the event id regardless of the write outcomes. -/
def submit_speedtest (decode : List Nat → Option PublicKey)
    (verify : PublicKey → SpeedtestReqV1 → Bool) (now : Nat)
    (req_write speedtest_result : Except String Unit) (event : SpeedtestReqV1) :
    Except Status SpeedtestRespV1 × List MobileWrite :=
  let timestamp := now
  match gate decode verify event.pub_key event with
  | .error e => (.error e, [])
  | .ok _public_key =>
      let event_id := eventIdOf event.contentBytes
      let report : SpeedtestIngestReportV1 :=
        { report := some event, received_timestamp := timestamp }
      (.ok { id := hexString event_id },
       [.speedtest_req event req_write, .speedtest_report report speedtest_result])

/-- `GrpcServer::submit_cell_heartbeat` (server_5g.rs:59-90). -/
def submit_cell_heartbeat (decode : List Nat → Option PublicKey)
    (verify : PublicKey → CellHeartbeatReqV1 → Bool) (now : Nat)
    (req_write report_write : Except String Unit) (event : CellHeartbeatReqV1) :
    Except Status CellHeartbeatRespV1 × List MobileWrite :=
  let timestamp := now
  match gate decode verify event.pub_key event with
  | .error e => (.error e, [])
  | .ok _public_key =>
      let event_id := eventIdOf event.contentBytes
      let report : CellHeartbeatIngestReportV1 :=
        { report := some event, received_timestamp := timestamp }
      (.ok { id := hexString event_id },
       [.heartbeat_req event req_write, .heartbeat_report report report_write])

end GrpcServer5g

/-! ## The mobile transport layer: bearer-token interceptor

`server_5g.rs::grpc_server` (lines 151-175) wraps the whole mobile service in
a `tonic` interceptor: the `authorization` metadata entry must equal
`format!("Bearer {}", token)` for the configured token, or the request is
rejected as unauthenticated before any handler runs. -/

/-- The configured metadata value: `format!("Bearer {}", token)`
(server_5g.rs:151-155). -/
def apiTokenValue (token : String) : String := "Bearer " ++ token

/-- The interceptor closure (server_5g.rs:171-174). -/
def authInterceptor (api_token : String) (metadata : List (String × String)) :
    Except Status Unit :=
  match metadata.lookup "authorization" with
  | some t => if api_token = t then .ok () else .error (.unauthenticated "No valid auth token")
  | none => .error (.unauthenticated "No valid auth token")

/-- A request to one of the two mobile endpoints. -/
inductive MobileRequest where
  | speedtest (event : SpeedtestReqV1)
  | cell_heartbeat (event : CellHeartbeatReqV1)
deriving Repr, DecidableEq

/-- The response of the corresponding endpoint. -/
inductive MobileResponse where
  | speedtest (resp : SpeedtestRespV1)
  | cell_heartbeat (resp : CellHeartbeatRespV1)
deriving Repr, DecidableEq

/-- Dispatch of an (already authorised) request to the matching mobile
handler. -/
def handleMobile (decode : List Nat → Option PublicKey)
    (verifyS : PublicKey → SpeedtestReqV1 → Bool)
    (verifyH : PublicKey → CellHeartbeatReqV1 → Bool) (now : Nat)
    (w1 w2 : Except String Unit) :
    MobileRequest → Except Status MobileResponse × List MobileWrite
  | .speedtest event =>
      let (resp, writes) := GrpcServer5g.submit_speedtest decode verifyS now w1 w2 event
      (resp.map .speedtest, writes)
  | .cell_heartbeat event =>
      let (resp, writes) := GrpcServer5g.submit_cell_heartbeat decode verifyH now w1 w2 event
      (resp.map .cell_heartbeat, writes)

/-- The mobile service as assembled by `grpc_server` (server_5g.rs:165-175):
`Server::with_interceptor` runs `authInterceptor` first; only a request it
accepts reaches a submit handler. -/
def processMobile (api_token : String) (metadata : List (String × String))
    (decode : List Nat → Option PublicKey)
    (verifyS : PublicKey → SpeedtestReqV1 → Bool)
    (verifyH : PublicKey → CellHeartbeatReqV1 → Bool) (now : Nat)
    (w1 w2 : Except String Unit) (req : MobileRequest) :
    Except Status MobileResponse × List MobileWrite :=
  match authInterceptor api_token metadata with
  | .error e => (.error e, [])
  | .ok () => handleMobile decode verifyS verifyH now w1 w2 req

/-! ## The pipeline orchestrator

`server/iot.rs::run` (lines 147-154) and `server_iot.rs::grpc_server`
(lines 160-167) end with
`tokio::try_join!(server, beacon_sink.run(..), witness_sink.run(..), upload.run(..))`.
The orchestrator receives only the *listen* half of the shutdown signal
(`shutdown : triggered::Listener`); no code path in either function fires
the trigger.  `try_join!` polls its futures concurrently and, as soon as one
of them completes with an error, returns that error and drops the remaining
futures.  Tasks are abstracted by their eventual outcomes, listed in
completion order. -/

/-- Outcome of one pipeline task (transport listener, a sink, the uploader). -/
inductive TaskOutcome where
  | ok
  | err (e : String)
deriving Repr, DecidableEq

/-- How `tokio::try_join!` leaves one of the joined tasks: run to completion,
or dropped (cancelled at its next suspension point, with no drain). -/
inductive TaskFate where
  | completed (outcome : TaskOutcome)
  | cancelled
deriving Repr, DecidableEq

/-- Model of `tokio::try_join!` over tasks given in completion order: every
task up to and including the first failing one completes; once a task fails,
the remaining futures are dropped and the first error is returned. -/
def tryJoin : List TaskOutcome → Except String Unit × List TaskFate
  | [] => (.ok (), [])
  | .ok :: rest =>
      let (r, fates) := tryJoin rest
      (r, .completed .ok :: fates)
  | .err e :: rest =>
      (.error e, .completed (.err e) :: rest.map (fun _ => .cancelled))

/-- The orchestrator tail of `server/iot.rs::run` and
`server_iot.rs::grpc_server`: join the pipeline tasks with `try_join!` and
return its result to the caller.  The shutdown-signal state is returned
alongside: the function holds only a `triggered::Listener`, so the state is
necessarily unchanged. -/
def orchestrate (shutdown_triggered : Bool) (tasks : List TaskOutcome) :
    (Except String Unit × List TaskFate) × Bool :=
  (tryJoin tasks, shutdown_triggered)

/-! ## Spec-side definitions

These definitions follow the words of the specification (and of the claims
under examination), to be compared with the embeddings above. -/

/-- Spec-side Verification Gate (§4.1): apply `decode_public_key`,
`check_network`, `verify_signature` in strict order, short-circuit on the
first failure, and report exactly the first failing check's error class. -/
def gateFirstError {E : Type} (decode : List Nat → Option PublicKey)
    (required_network : Network) (verify : PublicKey → E → Bool)
    (pub_key_bytes : List Nat) (event : E) : Except Status Unit :=
  match decode pub_key_bytes with
  | none => .error (.invalid_argument "invalid public key")
  | some pk =>
      if required_network = pk.network then
        if verify pk event then .ok () else .error (.invalid_argument "invalid signature")
      else .error (.invalid_argument "invalid network")

/-- Spec-side gate of the mobile handlers as amended: only
`decode_public_key` and `verify_signature`, in that order, with the first
failing check's error; no network check. -/
def mobileGateFirstError {E : Type} (decode : List Nat → Option PublicKey)
    (verify : PublicKey → E → Bool) (pub_key_bytes : List Nat) (event : E) :
    Except Status PublicKey :=
  match decode pub_key_bytes with
  | none => .error (.invalid_argument "invalid public key")
  | some pk =>
      if verify pk event then .ok pk else .error (.invalid_argument "invalid signature")

/-- Spec-side view of fail-fast joining: the first error among the task
outcomes, in completion order. -/
def firstError : List TaskOutcome → Except String Unit
  | [] => .ok ()
  | .ok :: rest => firstError rest
  | .err e :: _ => .error e

/-- Spec-side view of the fates `try_join!` deals out: every task before the
first failing one completes, the failing one completes with its error, and
every later task is dropped without a drain. -/
def joinFates : List TaskOutcome → List TaskFate
  | [] => []
  | .ok :: rest => .completed .ok :: joinFates rest
  | .err e :: rest => .completed (.err e) :: rest.map (fun _ => .cancelled)

/-! ## Helper lemmas -/

/-- `natToBytesBE` always yields exactly `count` bytes. -/
theorem natToBytesBE_length (n count : Nat) : (natToBytesBE n count).length = count := by
  simp [natToBytesBE]

/-- A SHA-256 digest is exactly 32 bytes (a 256-bit value). -/
theorem sha256_length (msg : List Nat) : (sha256 msg).length = 32 := by
  simp [sha256, Sha256.hsBytes, natToBytesBE_length]

/-- `hexString` renders two characters per byte. -/
theorem hexString_length (bs : List Nat) : (hexString bs).length = 2 * bs.length := by
  simp only [hexString, String.length]
  induction bs with
  | nil => rfl
  | cons b rest ih =>
      simp [List.foldr_cons, ih]
      omega

set_option maxRecDepth 40000

/-! ## Claim theorems -/

/-- C4: `generate_id` is deterministic — two calls of
`LoraWitnessReport::generate_id` with identical payload bytes, identical
received timestamp, and identical raw public key bytes yield identical
digests (the other report fields play no role). -/
theorem generate_id_deterministic (r1 r2 : LoraWitnessReport) (ts1 ts2 : DateTimeUtc)
    (hdata : r1.data = r2.data) (hkey : r1.pub_key.to_vec = r2.pub_key.to_vec)
    (hts : ts1 = ts2) :
    r1.generate_id ts1 = r2.generate_id ts2 := by
  simp [LoraWitnessReport.generate_id, hdata, hkey, hts]

/-- Witness for C4: two concrete reports that differ in `snr`, `signal` and
`signature` but agree on payload, public key bytes and timestamp produce the
same digest. -/
theorem generate_id_deterministic_witness :
    (LoraWitnessReport.data ⟨⟨.mainnet, [1, 2]⟩, [3, 4], ⟨0⟩, 0, 0, 0, 0, 0, [9]⟩ =
        LoraWitnessReport.data ⟨⟨.mainnet, [1, 2]⟩, [3, 4], ⟨0⟩, 0, 5, 7, 0, 0, []⟩)
    ∧ (PublicKey.to_vec (LoraWitnessReport.pub_key ⟨⟨.mainnet, [1, 2]⟩, [3, 4], ⟨0⟩, 0, 0, 0, 0, 0, [9]⟩) =
        PublicKey.to_vec (LoraWitnessReport.pub_key ⟨⟨.mainnet, [1, 2]⟩, [3, 4], ⟨0⟩, 0, 5, 7, 0, 0, []⟩))
    ∧ LoraWitnessReport.generate_id ⟨⟨.mainnet, [1, 2]⟩, [3, 4], ⟨0⟩, 0, 0, 0, 0, 0, [9]⟩ ⟨7⟩ =
        LoraWitnessReport.generate_id ⟨⟨.mainnet, [1, 2]⟩, [3, 4], ⟨0⟩, 0, 5, 7, 0, 0, []⟩ ⟨7⟩ :=
  ⟨by decide, by decide,
    generate_id_deterministic _ _ _ _ (by decide) (by decide) rfl⟩

/-- C5: for every ingest report, `LoraWitnessIngestReport::generate_id` is
the SHA-256 digest of the report payload bytes, then the bytes of the
rendered `received_timestamp`, then the raw public key bytes, in that order —
and the digest is 256 bits (32 bytes) long. -/
theorem generate_id_is_sha256_of_concat (r : LoraWitnessIngestReport) :
    r.generate_id =
      sha256 (r.report.data ++ strBytes r.received_timestamp.render ++
        r.report.pub_key.to_vec)
    ∧ r.generate_id.length = 32 := by
  constructor
  · simp [LoraWitnessIngestReport.generate_id, List.append_assoc]
  · simp [LoraWitnessIngestReport.generate_id, sha256_length]

/-- C6: `generate_id` is a total function of the report: it always returns a
digest (32 bytes) and can neither fail nor signal an error — its embedding
is a pure function into `List Nat`, not into an error monad, because the
source performs only infallible operations (`clone`, `append`,
`Sha256::digest`). -/
theorem generate_id_total (r : LoraWitnessIngestReport) :
    ∃ digest : List Nat, r.generate_id = digest ∧ digest.length = 32 :=
  ⟨r.generate_id, rfl, by simp [LoraWitnessIngestReport.generate_id, sha256_length]⟩

/-- C9: the two id functions of `lora_witness_report.rs` agree —
`LoraWitnessIngestReport::generate_id` on the ingest report built from a
report and a received timestamp equals `LoraWitnessReport::generate_id` of
the report applied to that timestamp. -/
theorem generate_id_agree (report : LoraWitnessReport) (ts : DateTimeUtc) :
    LoraWitnessIngestReport.generate_id ⟨ts, report⟩ = report.generate_id ts := rfl
/-- The `server/iot.rs` verification chain equals the spec-side
first-failing-check gate. -/
theorem serverIot_gate_eq_firstError {E : Type} (decode : List Nat → Option PublicKey)
    (required_network : Network) (verify : PublicKey → E → Bool)
    (pub_key_bytes : List Nat) (event : E) :
    ServerIot.gate decode required_network verify pub_key_bytes event =
      gateFirstError decode required_network verify pub_key_bytes event := by
  unfold ServerIot.gate ServerIot.decode_pub_key ServerIot.verify_network
    ServerIot.verify_signature gateFirstError
  cases decode pub_key_bytes with
  | none => rfl
  | some pk =>
      by_cases hn : required_network = pk.network
      · by_cases hv : verify pk event <;>
          simp [Except.instMonad, Except.bind, hn, hv]
      · simp [Except.instMonad, Except.bind, hn]

/-- The `server_iot.rs` verification chain equals the spec-side
first-failing-check gate (up to the key/event payload it hands on). -/
theorem GrpcserverIot_gate_eq_firstError {E : Type} (decode : List Nat → Option PublicKey)
    (required_network : Network) (verify : PublicKey → E → Bool)
    (pub_key_bytes : List Nat) (event : E) :
    Except.map (fun _ => ())
        (GrpcServerIot.gate decode required_network verify pub_key_bytes event) =
      gateFirstError decode required_network verify pub_key_bytes event := by
  unfold GrpcServerIot.gate GrpcServerIot.verify_public_key
    GrpcServerIot.verify_network GrpcServerIot.verify_signature gateFirstError
  cases decode pub_key_bytes with
  | none => rfl
  | some pk =>
      by_cases hn : required_network = pk.network
      · by_cases hv : verify pk event <;>
          simp [Except.instMonad, Except.bind, Except.map, hn, hv]
      · simp [Except.instMonad, Except.bind, Except.map, hn]

/-- The `server_5g.rs` verification prefix equals the spec-side two-check
gate: decode, then signature, with no network check. -/
theorem grpcServer5g_gate_eq_firstError {E : Type} (decode : List Nat → Option PublicKey)
    (verify : PublicKey → E → Bool) (pub_key_bytes : List Nat) (event : E) :
    GrpcServer5g.gate decode verify pub_key_bytes event =
      mobileGateFirstError decode verify pub_key_bytes event := by
  unfold GrpcServer5g.gate mobileGateFirstError
  cases decode pub_key_bytes with
  | none => rfl
  | some pk =>
      by_cases hv : verify pk event <;>
        simp [Except.instMonad, Except.bind, hv]

/-- The spec-side gate succeeds exactly when all three checks succeed. -/
theorem gateFirstError_isOk {E : Type} (decode : List Nat → Option PublicKey)
    (required_network : Network) (verify : PublicKey → E → Bool)
    (pub_key_bytes : List Nat) (event : E) :
    (gateFirstError decode required_network verify pub_key_bytes event).isOk = true ↔
      ∃ pk, decode pub_key_bytes = some pk ∧ required_network = pk.network ∧
        verify pk event = true := by
  unfold gateFirstError
  cases hd : decode pub_key_bytes with
  | none => simp [Except.isOk, Except.toBool]
  | some pk =>
      by_cases hn : required_network = pk.network
      · by_cases hv : verify pk event <;>
          simp [Except.isOk, Except.toBool, hn, hv]
      · simp [Except.isOk, Except.toBool, hn]

/-- C1 (amended): the iot submit operations (`server/iot.rs` and
`server_iot.rs`) run the Verification Gate as
decode → network → signature with short-circuit, succeeding iff all three
checks succeed and otherwise reporting exactly the first failing check's
error class; the mobile submit operations (`server_5g.rs`) run only
decode → signature — there is no network check on the mobile path. -/
theorem verification_gate_order {E : Type} (decode : List Nat → Option PublicKey)
    (required_network : Network) (verify : PublicKey → E → Bool)
    (pub_key_bytes : List Nat) (event : E) :
    ServerIot.gate decode required_network verify pub_key_bytes event =
      gateFirstError decode required_network verify pub_key_bytes event
    ∧ Except.map (fun _ => ())
        (GrpcServerIot.gate decode required_network verify pub_key_bytes event) =
      gateFirstError decode required_network verify pub_key_bytes event
    ∧ GrpcServer5g.gate decode verify pub_key_bytes event =
      mobileGateFirstError decode verify pub_key_bytes event
    ∧ ((ServerIot.gate decode required_network verify pub_key_bytes event).isOk = true ↔
        ∃ pk, decode pub_key_bytes = some pk ∧ required_network = pk.network ∧
          verify pk event = true) := by
  refine ⟨serverIot_gate_eq_firstError .., GrpcserverIot_gate_eq_firstError ..,
    grpcServer5g_gate_eq_firstError .., ?_⟩
  rw [serverIot_gate_eq_firstError]
  exact gateFirstError_isOk decode required_network verify pub_key_bytes event

/-- Counterexample to C1 as stated: a speedtest submission whose decoded key
lives on the test network is accepted by the mobile submit operation even
though the network check (against a mainnet server) fails — so it is not the
case that every submit operation succeeds only when all three checks
succeed. -/
theorem verification_gate_order_counterexample :
    ((GrpcServer5g.submit_speedtest (fun _ => some ⟨Network.testnet, [0]⟩)
        (fun _ _ => true) 0 (.ok ()) (.ok ())
        ⟨[0], "sn", 0, 0, 0, 0, [1]⟩).1.isOk = true)
    ∧ ServerIot.verify_network Network.mainnet ⟨Network.testnet, [0]⟩ =
        .error (.invalid_argument "invalid network") := ⟨rfl, rfl⟩

/-- C2 (amended): when verification succeeds, the handlers of
`server/iot.rs` answer with the rendered `EventId` of the event, while the
handlers of `server_iot.rs` answer with the millisecond reception time
rendered as a decimal string — not the EventId. -/
theorem response_identifier (decode : List Nat → Option PublicKey)
    (required_network : Network) (verifyB : PublicKey → LoraBeaconReportReqV1 → Bool)
    (verifyW : PublicKey → LoraWitnessReportReqV1 → Bool) (now : Nat)
    (sr : Except String Unit) (evB : LoraBeaconReportReqV1)
    (evW : LoraWitnessReportReqV1) :
    (ServerIot.submit_lora_beacon decode required_network verifyB now sr evB).1 =
      (ServerIot.gate decode required_network verifyB evB.pub_key evB).map
        (fun _ => { id := eventIdString evB.contentBytes })
    ∧ (ServerIot.submit_lora_witness decode required_network verifyW now sr evW).1 =
      (ServerIot.gate decode required_network verifyW evW.pub_key evW).map
        (fun _ => { id := eventIdString evW.contentBytes })
    ∧ (GrpcServerIot.submit_lora_beacon decode required_network verifyB now sr evB).1 =
      (GrpcServerIot.gate decode required_network verifyB evB.pub_key evB).map
        (fun _ => { id := toString now })
    ∧ (GrpcServerIot.submit_lora_witness decode required_network verifyW now sr evW).1 =
      (GrpcServerIot.gate decode required_network verifyW evW.pub_key evW).map
        (fun _ => { id := toString now }) := by
  refine ⟨?_, ?_, ?_, ?_⟩
  · unfold ServerIot.submit_lora_beacon
    cases ServerIot.gate decode required_network verifyB evB.pub_key evB with
    | error e => rfl
    | ok u => cases u; rfl
  · unfold ServerIot.submit_lora_witness
    cases ServerIot.gate decode required_network verifyW evW.pub_key evW with
    | error e => rfl
    | ok u => cases u; rfl
  · unfold GrpcServerIot.submit_lora_beacon
    cases GrpcServerIot.gate decode required_network verifyB evB.pub_key evB with
    | error e => rfl
    | ok pe => rfl
  · unfold GrpcServerIot.submit_lora_witness
    cases GrpcServerIot.gate decode required_network verifyW evW.pub_key evW with
    | error e => rfl
    | ok pe => rfl

/-- Counterexample to C2 as stated: a witness report accepted by
`server_iot.rs::submit_lora_witness` at reception time 0 is answered with the
identifier `"0"`, which is not the rendering of any `EventId` — an EventId
renders as 64 hexadecimal characters. -/
theorem response_identifier_counterexample :
    (GrpcServerIot.submit_lora_witness (fun _ => some ⟨Network.mainnet, [0]⟩)
        Network.mainnet (fun _ _ => true) 0 (.ok ())
        ⟨[0], [1], 0, 0, 0, 0, 0, 0, [2]⟩).1 = .ok { id := "0" }
    ∧ "0" ≠ eventIdString
        (LoraWitnessReportReqV1.contentBytes ⟨[0], [1], 0, 0, 0, 0, 0, 0, [2]⟩) := by
  constructor
  · rfl
  · intro h
    have hlen := congrArg String.length h
    rw [eventIdString, eventIdOf, hexString_length, sha256_length] at hlen
    exact absurd hlen (by decide)

/-- C3: on any Verification Gate failure the handler returns that error to
the caller and hands nothing to any sink — the write list is empty, so no
durable side effect happens before verification succeeds.  Stated for the
beacon handler of `server/iot.rs`, the witness handler of `server_iot.rs`
and the speedtest handler of `server_5g.rs`. -/
theorem no_write_on_gate_failure :
    (∀ (decode : List Nat → Option PublicKey) (required_network : Network)
        (verify : PublicKey → LoraBeaconReportReqV1 → Bool) (now : Nat)
        (sr : Except String Unit) (event : LoraBeaconReportReqV1) (e : Status),
      ServerIot.gate decode required_network verify event.pub_key event = .error e →
      ServerIot.submit_lora_beacon decode required_network verify now sr event =
        (.error e, []))
    ∧ (∀ (decode : List Nat → Option PublicKey) (required_network : Network)
        (verify : PublicKey → LoraWitnessReportReqV1 → Bool) (now : Nat)
        (sr : Except String Unit) (event : LoraWitnessReportReqV1) (e : Status),
      GrpcServerIot.gate decode required_network verify event.pub_key event = .error e →
      GrpcServerIot.submit_lora_witness decode required_network verify now sr event =
        (.error e, []))
    ∧ (∀ (decode : List Nat → Option PublicKey)
        (verify : PublicKey → SpeedtestReqV1 → Bool) (now : Nat)
        (w1 w2 : Except String Unit) (event : SpeedtestReqV1) (e : Status),
      GrpcServer5g.gate decode verify event.pub_key event = .error e →
      GrpcServer5g.submit_speedtest decode verify now w1 w2 event = (.error e, [])) := by
  refine ⟨?_, ?_, ?_⟩
  · intro decode required_network verify now sr event e hgate
    unfold ServerIot.submit_lora_beacon
    rw [hgate]
  · intro decode required_network verify now sr event e hgate
    unfold GrpcServerIot.submit_lora_witness
    rw [hgate]
    rfl
  · intro decode verify now w1 w2 event e hgate
    unfold GrpcServer5g.submit_speedtest
    rw [hgate]

/-- Witness for C3: a concrete submission whose public key fails to decode is
answered with `invalid public key` and writes nothing. -/
theorem no_write_on_gate_failure_witness :
    ServerIot.gate (fun _ => (none : Option PublicKey)) Network.mainnet
        (fun _ _ => true)
        (LoraBeaconReportReqV1.pub_key ⟨[5], [], [], [6], 0, 0, 0, 0, 0, [7]⟩)
        (⟨[5], [], [], [6], 0, 0, 0, 0, 0, [7]⟩ : LoraBeaconReportReqV1) =
      .error (.invalid_argument "invalid public key")
    ∧ ServerIot.submit_lora_beacon (fun _ => (none : Option PublicKey)) Network.mainnet
        (fun _ _ => true) 0 (.ok ()) ⟨[5], [], [], [6], 0, 0, 0, 0, 0, [7]⟩ =
      (.error (.invalid_argument "invalid public key"), []) :=
  ⟨by decide,
    no_write_on_gate_failure.1 (fun _ => none) Network.mainnet (fun _ _ => true) 0
      (.ok ()) ⟨[5], [], [], [6], 0, 0, 0, 0, 0, [7]⟩ _ (by decide)⟩

/-- C7: once the gate has accepted a request, the handler answers with the
success response carrying the identifier whatever the sink enqueue outcomes
are — a sink write failure never reaches the client.  Stated for the
speedtest handler of `server_5g.rs` and the beacon handler of
`server/iot.rs`. -/
theorem response_independent_of_sink_outcome :
    (∀ (decode : List Nat → Option PublicKey)
        (verify : PublicKey → SpeedtestReqV1 → Bool) (now : Nat) (pk : PublicKey)
        (event : SpeedtestReqV1),
      GrpcServer5g.gate decode verify event.pub_key event = .ok pk →
      ∀ w1 w2 : Except String Unit,
        (GrpcServer5g.submit_speedtest decode verify now w1 w2 event).1 =
          .ok { id := eventIdString event.contentBytes })
    ∧ (∀ (decode : List Nat → Option PublicKey) (required_network : Network)
        (verify : PublicKey → LoraBeaconReportReqV1 → Bool) (now : Nat)
        (event : LoraBeaconReportReqV1),
      ServerIot.gate decode required_network verify event.pub_key event = .ok () →
      ∀ sr : Except String Unit,
        (ServerIot.submit_lora_beacon decode required_network verify now sr event).1 =
          .ok { id := eventIdString event.contentBytes }) := by
  constructor
  · intro decode verify now pk event hgate w1 w2
    unfold GrpcServer5g.submit_speedtest
    rw [hgate]
    rfl
  · intro decode required_network verify now event hgate sr
    unfold ServerIot.submit_lora_beacon
    rw [hgate]
    rfl

/-- Witness for C7: a concrete accepted speedtest is answered with its event
id even when both sink writes fail. -/
theorem response_independent_of_sink_outcome_witness :
    GrpcServer5g.gate (fun _ => some ⟨Network.mainnet, [7]⟩) (fun _ _ => true)
        (SpeedtestReqV1.pub_key ⟨[7], "sn", 1, 2, 3, 4, [8]⟩)
        (⟨[7], "sn", 1, 2, 3, 4, [8]⟩ : SpeedtestReqV1) =
      .ok ⟨Network.mainnet, [7]⟩
    ∧ (GrpcServer5g.submit_speedtest (fun _ => some ⟨Network.mainnet, [7]⟩)
        (fun _ _ => true) 5 (.error "disk full") (.error "disk full")
        ⟨[7], "sn", 1, 2, 3, 4, [8]⟩).1 =
      .ok { id := eventIdString (SpeedtestReqV1.contentBytes ⟨[7], "sn", 1, 2, 3, 4, [8]⟩) } :=
  ⟨by decide,
    response_independent_of_sink_outcome.1 (fun _ => some ⟨Network.mainnet, [7]⟩)
      (fun _ _ => true) 5 ⟨Network.mainnet, [7]⟩ ⟨[7], "sn", 1, 2, 3, 4, [8]⟩
      (by decide) (.error "disk full") (.error "disk full")⟩

/-- C8 (amended): when a pipeline task terminates with an error, the
orchestrator reports the first such error to its caller, but it does not
trigger the shared shutdown signal — it holds only the listen half of the
signal, and `tokio::try_join!` drops the remaining tasks instead of letting
them drain. -/
theorem orchestrator_error_reporting (shutdown_triggered : Bool)
    (tasks : List TaskOutcome) :
    orchestrate shutdown_triggered tasks =
      ((firstError tasks, joinFates tasks), shutdown_triggered) := by
  unfold orchestrate
  induction tasks with
  | nil => rfl
  | cons t rest ih =>
      cases t with
      | ok =>
          simp only [tryJoin, firstError, joinFates] at ih ⊢
          rw [Prod.mk.injEq] at ih
          simp [ih.1]
      | err e => rfl

/-- Counterexample to C8 as stated: the transport listener fails while the
shutdown signal is untriggered; the orchestrator reports the error, yet the
signal stays untriggered and the three remaining tasks (two sinks and the
uploader) are dropped by `try_join!` without a graceful drain. -/
theorem orchestrator_error_reporting_counterexample :
    (orchestrate false [.err "transport failed", .ok, .ok, .ok]).2 = false
    ∧ (orchestrate false [.err "transport failed", .ok, .ok, .ok]).1.1 =
        .error "transport failed"
    ∧ (orchestrate false [.err "transport failed", .ok, .ok, .ok]).1.2 =
        [.completed (.err "transport failed"), .cancelled, .cancelled, .cancelled] :=
  ⟨rfl, rfl, rfl⟩

/-- C10: every request to the mobile ingest service is rejected as
unauthenticated — with nothing reaching a handler, no gate check and no sink
write — unless its `authorization` metadata entry exactly equals the
configured `Bearer` token, in which case it is handed to the submit
handlers. -/
theorem mobile_requests_require_bearer_token (token : String)
    (metadata : List (String × String)) (decode : List Nat → Option PublicKey)
    (verifyS : PublicKey → SpeedtestReqV1 → Bool)
    (verifyH : PublicKey → CellHeartbeatReqV1 → Bool) (now : Nat)
    (w1 w2 : Except String Unit) (req : MobileRequest) :
    processMobile (apiTokenValue token) metadata decode verifyS verifyH now w1 w2 req =
      if metadata.lookup "authorization" = some (apiTokenValue token) then
        handleMobile decode verifyS verifyH now w1 w2 req
      else (.error (.unauthenticated "No valid auth token"), []) := by
  unfold processMobile authInterceptor
  cases h : metadata.lookup "authorization" with
  | none => simp [h]
  | some t =>
      by_cases he : apiTokenValue token = t
      · subst he
        simp [h]
      · have hne : ¬(t = apiTokenValue token) := fun hc => he hc.symm
        simp [he, hne]
